import Mathlib

/-!
# Listings service (`main.go`)

A shallow embedding of the HTTP handler `listingsHandler` and of the data-access /
transformation function `getFeatureCollection`, together with the parts of the Go
standard library they call (`strconv.Atoi`, `Request.FormValue`, `json.Marshal`,
`database/sql` cursors), followed by theorems about them.

Conventions.
* Go `int` is 64 bits wide; values are `Int`, the unsigned accumulator of
  `strconv.ParseUint` is a `Nat` reduced modulo `2^64` where the source can wrap.
* A `float64` is carried as its bit pattern; the program never computes with it.
* A slice is `Option (List α)`: `none` is the nil slice, `some []` the empty one.
* The prepared statement, the iteration order of the Go map `vals` and the decimal
  formatting of finite floats are explicit parameters.
-/

namespace Listings

/-! ## Data model (main.go, lines 17-41) -/

/-- A Go `error` value as far as the program observes it: the dynamic type name
(what `%T` prints) and the text of `Error()`. -/
structure GoError where
  typ : String
  msg : String
deriving DecidableEq, Repr

/-- A `float64`, carried as its IEEE-754 binary64 bit pattern. -/
structure Float64 where
  bits : Nat
deriving DecidableEq, Repr

/-- Go struct `Geometry`; the field `Type` is spelled `Typ`. -/
structure Geometry where
  Coordinates : Option (List Float64)
  Typ : String
deriving DecidableEq, Repr

/-- Go struct `Properties`. -/
structure Properties where
  Bathrooms : Int
  Bedrooms : Int
  ID : String
  Price : Int
  SqFt : Int
  Street : String
deriving DecidableEq, Repr

/-- Go struct `Feature`; the field `Type` is spelled `Typ`. -/
structure Feature where
  Geometry : Geometry
  Properties : Properties
  Typ : String
deriving DecidableEq, Repr

/-- Go struct `FeatureCollection`; the field `Type` is spelled `Typ`. -/
structure FeatureCollection where
  Features : Option (List Feature)
  Typ : String
deriving DecidableEq, Repr

/-! ## The database seen through `database/sql` -/

/-- The eight columns `id, street, price, bedrooms, bathrooms, sq_ft, lat, lng` of a
result row, as `rows.Scan` stores them into the loop variables. -/
structure Row where
  id : String
  street : String
  price : Int
  beds : Int
  baths : Int
  sqft : Int
  lat : Float64
  lng : Float64
deriving DecidableEq, Repr

/-- A `*sql.Rows` cursor: one entry of `steps` for each time `rows.Next()` answers
true, holding what the following `rows.Scan` does (the scanned row, or its error);
`err` is what `rows.Err()` reports once `rows.Next()` has answered false (`none`
when the result set was simply exhausted). -/
structure Rows where
  steps : List (Except GoError Row)
  err : Option GoError

/-- A `*sql.Stmt`: what `stmt.Query` answers to six arguments. -/
structure Stmt where
  Query : Int → Int → Int → Int → Int → Int → Except GoError Rows

/-- SQL `x BETWEEN lo AND hi`. -/
def between (x lo hi : Int) : Bool :=
  decide (lo ≤ x) && decide (x ≤ hi)

/-- The rows selected by the statement prepared in `main` (lines 56-59):
`WHERE price BETWEEN $1 AND $2 AND bedrooms BETWEEN $3 AND $4 AND bathrooms BETWEEN
$5 AND $6`, over a table given in the order the database returns its rows. -/
def selectListings (table : List Row)
    (a1 a2 a3 a4 a5 a6 : Int) : List Row :=
  table.filter fun row =>
    between row.price a1 a2 && between row.beds a3 a4 && between row.baths a5 a6

/-- The statement of `main` prepared against a database that holds `table` and
answers without any failure. -/
def Prepare (table : List Row) : Stmt where
  Query a1 a2 a3 a4 a5 a6 :=
    .ok { steps := (selectListings table a1 a2 a3 a4 a5 a6).map .ok, err := none }

/-! ## `getFeatureCollection` (main.go, lines 119-151) -/

/-- Lines 141-145: the feature built from the variables `rows.Scan` has filled. -/
def buildFeature (row : Row) : Feature :=
  let properties : Properties :=
    { Bathrooms := row.baths, Bedrooms := row.beds, ID := row.id,
      Price := row.price, SqFt := row.sqft, Street := row.street }
  let geometry : Geometry := { Coordinates := some [row.lng, row.lat], Typ := "Point" }
  { Geometry := geometry, Properties := properties, Typ := "Feature" }

/-- The loop `for rows.Next() { ... }` of `getFeatureCollection`, lines 130-146, run
over the remaining steps of the cursor; `features` is the local slice. A failing
`rows.Scan` leaves the function at once (line 138). -/
def scanLoop : List (Except GoError Row) → List Feature → Except GoError (List Feature)
  | [], features => .ok features
  | .error err :: _, _ => .error err
  | .ok row :: rest, features => scanLoop rest (features ++ [buildFeature row])

/-- The zero value of `FeatureCollection`, which the named result `fc` holds until
lines 148-149 assign it. -/
def zeroFeatureCollection : FeatureCollection :=
  { Features := none, Typ := "" }

/-- Go `getFeatureCollection`: the pair `(fc, e)` it returns. `rows.Err()` is never
consulted by the source, so `Rows.err` is not read here. -/
def getFeatureCollection (stmt : Stmt)
    (minPrice maxPrice minBed maxBed minBath maxBath : Int) :
    FeatureCollection × Option GoError :=
  match stmt.Query minPrice maxPrice minBed maxBed minBath maxBath with
  | .error err => (zeroFeatureCollection, some err)
  | .ok rows =>
    match scanLoop rows.steps [] with
    | .error err => (zeroFeatureCollection, some err)
    | .ok features => ({ Features := some features, Typ := "FeatureCollection" }, none)

/-! ## `strconv.Atoi` (Go standard library, strconv/atoi.go) -/

/-- The two sentinel errors a `*strconv.NumError` can wrap here. -/
inductive NumErr where
  | ErrSyntax
  | ErrRange
deriving DecidableEq, Repr

/-- Width of Go `int`. -/
def intSize : Nat := 64

/-- Largest `uint64`. -/
def maxUint64 : Nat := 2 ^ 64 - 1

/-- The digit loop of `strconv.ParseUint(s, 10, 64)` over the remaining bytes, with
accumulator `n`. A byte that is no decimal digit is a syntax error; an overflow is a
range error carrying the largest value, reported as soon as it happens. -/
def parseUintLoop : List Char → Nat → Nat × Option NumErr
  | [], n => (n, none)
  | c :: rest, n =>
    if c.toNat < 48 ∨ 57 < c.toNat then (0, some .ErrSyntax)
    else
      let d := c.toNat - 48
      if n ≥ maxUint64 / 10 + 1 then (maxUint64, some .ErrRange)
      else
        let n0 := n * 10
        let n1 := (n0 + d) % 2 ^ 64
        if n1 < n0 ∨ n1 > maxUint64 then (maxUint64, some .ErrRange)
        else parseUintLoop rest n1

/-- Go `strconv.ParseUint(s, 10, 64)` on the bytes of `s`. -/
def ParseUint (s : List Char) : Nat × Option NumErr :=
  if s = [] then (0, some .ErrSyntax) else parseUintLoop s 0

/-- Go `strconv.ParseInt(s, 10, 0)` on the bytes of `s`. -/
def ParseInt (s : List Char) : Int × Option NumErr :=
  match s with
  | [] => (0, some .ErrSyntax)
  | c :: rest =>
    let neg := decide (c = '-')
    let digits := if c = '+' ∨ c = '-' then rest else s
    match ParseUint digits with
    | (_, some .ErrSyntax) => (0, some .ErrSyntax)
    | (un, _) =>
      let cutoff : Nat := 2 ^ (intSize - 1)
      if !neg && decide (un ≥ cutoff) then ((cutoff : Int) - 1, some .ErrRange)
      else if neg && decide (un > cutoff) then (-(cutoff : Int), some .ErrRange)
      else (if neg then -(un : Int) else (un : Int), none)

/-- The digit loop of the fast path of `strconv.Atoi`. -/
def atoiFastLoop : List Char → Int → Option Int
  | [], n => some n
  | c :: rest, n =>
    if c.toNat < 48 ∨ 57 < c.toNat then none
    else atoiFastLoop rest (n * 10 + ((c.toNat - 48 : Nat) : Int))

/-- Go `strconv.Atoi(s)`: the pair `(value, error)`. Strings of 1 to 18 bytes take
the fast path, all others go through `ParseInt`. -/
def Atoi (s : String) : Int × Option NumErr :=
  let sLen := s.utf8ByteSize
  if 0 < sLen ∧ sLen < 19 then
    match s.data with
    | [] => (0, some .ErrSyntax)
    | c :: rest =>
      let signed := decide (c = '-' ∨ c = '+')
      let digits := if signed then rest else c :: rest
      if signed && digits.isEmpty then (0, some .ErrSyntax)
      else
        match atoiFastLoop digits 0 with
        | none => (0, some .ErrSyntax)
        | some n => (if c = '-' then -n else n, none)
  else ParseInt s.data

/-! ## `json.Marshal` (Go standard library, encoding/json) on the four structs -/

/-- Lower-case hexadecimal digit. -/
def hexDigit (n : Nat) : Char :=
  "0123456789abcdef".data.getD n '0'

/-- How `encoding/json` (Go 1.22 and later) writes one character of a string, HTML
escaping on, as `json.Marshal` has it: short escapes for backslash, quote, backspace,
form feed, newline, carriage return and tab, `\u00XX` for the other control characters
and for `<`, `>`, `&`, and `\u2028`, `\u2029` for the two line separators. -/
def escapeChar (c : Char) : List Char :=
  if c = '\\' then ['\\', '\\']
  else if c = '"' then ['\\', '"']
  else if c.toNat = 8 then ['\\', 'b']
  else if c.toNat = 12 then ['\\', 'f']
  else if c = '\n' then ['\\', 'n']
  else if c = '\r' then ['\\', 'r']
  else if c = '\t' then ['\\', 't']
  else if c.toNat < 32 ∨ c = '<' ∨ c = '>' ∨ c = '&' then
    ['\\', 'u', '0', '0', hexDigit (c.toNat / 16), hexDigit (c.toNat % 16)]
  else if c.toNat = 8232 then ['\\', 'u', '2', '0', '2', '8']
  else if c.toNat = 8233 then ['\\', 'u', '2', '0', '2', '9']
  else [c]

/-- A Go string as a JSON string. -/
def encodeString (s : String) : String :=
  "\"" ++ String.mk (s.data.flatMap escapeChar) ++ "\""

/-- A Go `int` as a JSON number. -/
def encodeInt (n : Int) : String :=
  match n with
  | .ofNat m => Nat.repr m
  | .negSucc m => "-" ++ Nat.repr (m + 1)

/-- A `float64` as a JSON number. NaN and the infinities (exponent field all ones)
make `json.Marshal` fail with an `UnsupportedValueError`; the digits of a finite
value are produced by `fmtFloat` (Go `strconv.AppendFloat`). -/
def encodeFloat (fmtFloat : Float64 → String) (f : Float64) : Except GoError String :=
  if f.bits / 2 ^ 52 % 2 ^ 11 = 2047 then
    let shown :=
      if f.bits % 2 ^ 52 ≠ 0 then "NaN"
      else if f.bits / 2 ^ 63 % 2 = 1 then "-Inf" else "+Inf"
    .error { typ := "*json.UnsupportedValueError", msg := "json: unsupported value: " ++ shown }
  else .ok (fmtFloat f)

/-- A slice of already encoded elements: `null` for the nil slice, otherwise the
elements between brackets, separated by commas. -/
def encodeSlice : Option (List String) → String
  | none => "null"
  | some items => "[" ++ ",".intercalate items ++ "]"

/-- Encode every element of a slice, stopping at the first failure. -/
def encodeAll {α : Type} (enc : α → Except GoError String) :
    Option (List α) → Except GoError (Option (List String))
  | none => .ok none
  | some xs => (xs.mapM enc).map some

/-- JSON of a `Geometry`: fields in declaration order, keys from the struct tags. -/
def encodeGeometry (fmtFloat : Float64 → String) (g : Geometry) : Except GoError String := do
  let coords ← encodeAll (encodeFloat fmtFloat) g.Coordinates
  pure ("\x7b\"coordinates\":" ++ encodeSlice coords ++ ",\"type\":" ++ encodeString g.Typ ++ "\x7d")

/-- JSON of a `Properties`. -/
def encodeProperties (p : Properties) : String :=
  "\x7b\"bathrooms\":" ++ encodeInt p.Bathrooms ++ ",\"bedrooms\":" ++ encodeInt p.Bedrooms ++
    ",\"id\":" ++ encodeString p.ID ++ ",\"price\":" ++ encodeInt p.Price ++
    ",\"sq_ft\":" ++ encodeInt p.SqFt ++ ",\"street\":" ++ encodeString p.Street ++ "\x7d"

/-- JSON of a `Feature`. -/
def encodeFeature (fmtFloat : Float64 → String) (f : Feature) : Except GoError String := do
  let geometry ← encodeGeometry fmtFloat f.Geometry
  pure ("\x7b\"geometry\":" ++ geometry ++ ",\"properties\":" ++ encodeProperties f.Properties ++
    ",\"type\":" ++ encodeString f.Typ ++ "\x7d")

/-- Go `json.Marshal(featColl)`: the field `Features` (key `features`) is declared
before `Type` (key `type`) and is written first. -/
def Marshal (fmtFloat : Float64 → String) (fc : FeatureCollection) : Except GoError String := do
  let features ← encodeAll (encodeFeature fmtFloat) fc.Features
  pure ("\x7b\"features\":" ++ encodeSlice features ++ ",\"type\":" ++ encodeString fc.Typ ++ "\x7d")

/-! ## `listingsHandler` (main.go, lines 76-117) -/

/-- The parsed form of an `*http.Request`: `r.Form`, a map from keys to the values
supplied for them. -/
structure Request where
  Form : String → Option (List String)

/-- Go `r.FormValue(key)`: the first value supplied for `key`, the empty string when
there is none. -/
def Request.FormValue (r : Request) (key : String) : String :=
  match r.Form key with
  | some (v :: _) => v
  | _ => ""

/-- The Go map `vals`. -/
abbrev Vals := String → Int

/-- The map literal of lines 77-78. -/
def defaultVals : Vals := fun key =>
  if key = "min_price" then 0
  else if key = "max_price" then 300000
  else if key = "min_bed" then 0
  else if key = "max_bed" then 5
  else if key = "min_bath" then 0
  else if key = "max_bath" then 3
  else 0

/-- The keys of `vals`. -/
def filterKeys : List String :=
  ["min_price", "max_price", "min_bed", "max_bed", "min_bath", "max_bath"]

/-- Go `vals[key] = val`. -/
def Vals.set (vals : Vals) (key : String) (val : Int) : Vals := fun k =>
  if k = key then val else vals k

/-- The loop `for key := range vals { ... }` of lines 81-92 over the keys still to
visit: `.error key` when the handler answers 400 for `key` and returns, otherwise the
map after the loop. Only a syntax error stops the loop; on any other outcome of
`Atoi`, a range error included, the returned value is stored (line 89). -/
def parseLoop (r : Request) : List String → Vals → Except String Vals
  | [], vals => .ok vals
  | key :: rest, vals =>
    let fval := r.FormValue key
    if fval ≠ "" then
      match Atoi fval with
      | (_, some .ErrSyntax) => .error key
      | (val, _) => parseLoop r rest (vals.set key val)
    else parseLoop r rest vals

/-- What a client and the database see of one call of the handler: the status line,
the `Content-Type` header when the handler set one, the body written, and the
argument lists of the calls of `stmt.Query`, in order. -/
structure Outcome where
  status : Nat
  contentType : Option String
  body : String
  queries : List (Int × Int × Int × Int × Int × Int)
deriving DecidableEq, Repr

/-- The bound the specification assigns to `key`: the parsed integer when the key is
supplied with a non-empty value, the default otherwise. -/
def resolved (r : Request) (key : String) : Int :=
  if r.FormValue key = "" then defaultVals key else (Atoi (r.FormValue key)).1

/-- What `fmt.Fprintf(w, "We encountered a problem:\n", err)` writes: the format has
no verb, so `err` is appended as an extra operand. -/
def problemBody (err : GoError) : String :=
  "We encountered a problem:\n%!(EXTRA " ++ err.typ ++ "=" ++ err.msg ++ ")"

/-- Lines 94-116 of `listingsHandler`: the query with the six bounds read from
`vals`, the serialisation and the response. -/
def respond (fmtFloat : Float64 → String) (stmt : Stmt) (r : Request)
    (minPrice maxPrice minBed maxBed minBath maxBath : Int) : Outcome :=
  match getFeatureCollection stmt minPrice maxPrice minBed maxBed minBath maxBath with
  | (_, some err) =>
    { status := 500, contentType := none, body := problemBody err,
      queries := [(minPrice, maxPrice, minBed, maxBed, minBath, maxBath)] }
  | (featColl, none) =>
    match Marshal fmtFloat featColl with
    | .error err =>
      { status := 500, contentType := none, body := problemBody err,
        queries := [(minPrice, maxPrice, minBed, maxBed, minBath, maxBath)] }
    | .ok geoJson =>
      { status := 200,
        contentType :=
          if (r.Form "json").isSome then some "application/json"
          else some "application/vnd.geo+json",
        body := geoJson,
        queries := [(minPrice, maxPrice, minBed, maxBed, minBath, maxBath)] }

/-- Go `listingsHandler`, with the global `stmt`, the order `order` in which
`range vals` visits the keys, and the float formatter made explicit: lines 77-92,
then `respond`. -/
def listingsHandler (fmtFloat : Float64 → String) (stmt : Stmt) (order : List String)
    (r : Request) : Outcome :=
  match parseLoop r order defaultVals with
  | .error key =>
    { status := 400, contentType := none, body := key ++ " is not a number", queries := [] }
  | .ok vals =>
    respond fmtFloat stmt r (vals "min_price") (vals "max_price") (vals "min_bed")
      (vals "max_bed") (vals "min_bath") (vals "max_bath")

/-! ## Sample inputs -/

/-- A request whose form holds exactly the listed keys with their values. -/
def formOf (pairs : List (String × List String)) : Request where
  Form key := pairs.lookup key

/-- A listing priced 150000 with 2 bedrooms and 1 bathroom. -/
def listingA : Row :=
  { id := "a1", street := "1 Main St", price := 150000, beds := 2, baths := 1, sqft := 900,
    lat := { bits := 4630826316843712512 }, lng := { bits := 13859132925593518080 } }

/-- A listing priced 350000 with 4 bedrooms and 2 bathrooms. -/
def listingB : Row :=
  { id := "b2", street := "2 Side Rd", price := 350000, beds := 4, baths := 2, sqft := 2100,
    lat := { bits := 4630967054332067840 }, lng := { bits := 13859273663081873408 } }

/-- The error of a failing `rows.Scan`. -/
def scanFailure : GoError :=
  { typ := "*errors.errorString", msg := "sql: Scan error on column index 2" }

/-- A statement whose cursor yields `listingA`, then a row whose scan fails, then
`listingB`. -/
def scanFailingStmt : Stmt where
  Query _ _ _ _ _ _ :=
    .ok { steps := [.ok listingA, .error scanFailure, .ok listingB], err := none }

/-- A statement whose cursor yields `listingA` and then stops because the connection
broke: `rows.Next()` answers false and `rows.Err()` holds the error. -/
def brokenCursorStmt : Stmt where
  Query _ _ _ _ _ _ :=
    .ok { steps := [.ok listingA],
          err := some { typ := "*errors.errorString", msg := "driver: bad connection" } }

/-- A float formatter for the sample runs: it prints the bit pattern. -/
def sampleFmt (f : Float64) : String :=
  Nat.repr f.bits

/-! ## Facts about the row loop -/

theorem scanLoop_ok (rs : List Row) (acc : List Feature) :
    scanLoop (rs.map .ok) acc = .ok (acc ++ rs.map buildFeature) := by
  induction rs generalizing acc with
  | nil => simp [scanLoop]
  | cons row rest ih => simp [scanLoop, ih]

theorem scanLoop_error (scanned : List Row) (err : GoError) (rest : List (Except GoError Row))
    (acc : List Feature) :
    scanLoop (scanned.map .ok ++ .error err :: rest) acc = .error err := by
  induction scanned generalizing acc with
  | nil => simp [scanLoop]
  | cons row more ih => simpa [scanLoop] using ih _

theorem getFeatureCollection_of_rows (stmt : Stmt) (a1 a2 a3 a4 a5 a6 : Int) (rows : Rows)
    (rs : List Row) (hquery : stmt.Query a1 a2 a3 a4 a5 a6 = .ok rows)
    (hscan : rows.steps = rs.map .ok) :
    getFeatureCollection stmt a1 a2 a3 a4 a5 a6 =
      ({ Features := some (rs.map buildFeature), Typ := "FeatureCollection" }, none) := by
  simp [getFeatureCollection, hquery, hscan, scanLoop_ok]

theorem selectListings_eq (table : List Row) (a1 a2 a3 a4 a5 a6 : Int) :
    selectListings table a1 a2 a3 a4 a5 a6 =
      table.filter fun row => decide (a1 ≤ row.price ∧ row.price ≤ a2 ∧ a3 ≤ row.beds ∧
        row.beds ≤ a4 ∧ a5 ≤ row.baths ∧ row.baths ≤ a6) := by
  unfold selectListings between
  congr 1
  funext row
  simp only [Bool.decide_and, Bool.and_assoc]

/-! ## Claims about `getFeatureCollection` -/

/-- C1: when the query succeeds and every scan succeeds, the features returned are,
in row order, the features of exactly the rows of the table with
`minPrice ≤ price ≤ maxPrice`, `minBed ≤ bedrooms ≤ maxBed` and
`minBath ≤ bathrooms ≤ maxBath`; their number is the number of such rows, and it is
zero as soon as one minimum exceeds its maximum. -/
theorem getFeatureCollection_selects (stmt : Stmt) (table : List Row)
    (minPrice maxPrice minBed maxBed minBath maxBath : Int) (rows : Rows)
    (hquery : stmt.Query minPrice maxPrice minBed maxBed minBath maxBath = .ok rows)
    (hscan : rows.steps =
      (selectListings table minPrice maxPrice minBed maxBed minBath maxBath).map .ok) :
    ∃ features : List Feature,
      getFeatureCollection stmt minPrice maxPrice minBed maxBed minBath maxBath =
        ({ Features := some features, Typ := "FeatureCollection" }, none) ∧
      features = (table.filter fun row =>
        decide (minPrice ≤ row.price ∧ row.price ≤ maxPrice ∧ minBed ≤ row.beds ∧
          row.beds ≤ maxBed ∧ minBath ≤ row.baths ∧ row.baths ≤ maxBath)).map buildFeature ∧
      features.length = table.countP (fun row =>
        decide (minPrice ≤ row.price ∧ row.price ≤ maxPrice ∧ minBed ≤ row.beds ∧
          row.beds ≤ maxBed ∧ minBath ≤ row.baths ∧ row.baths ≤ maxBath)) ∧
      (maxPrice < minPrice ∨ maxBed < minBed ∨ maxBath < minBath → features.length = 0) := by
  refine ⟨_, getFeatureCollection_of_rows stmt _ _ _ _ _ _ rows _ hquery hscan, ?_, ?_, ?_⟩
  · rw [selectListings_eq]
  · rw [selectListings_eq, List.length_map, List.countP_eq_length_filter]
  · intro h
    rw [selectListings_eq, List.length_map, List.length_eq_zero, List.filter_eq_nil_iff]
    intro row _
    simp only [decide_eq_true_eq]
    omega

/-- Witness for C1: the listing priced 150000 is the only one selected by
`100000..200000, 2..3, 0..3`, and an inverted price range selects nothing. -/
theorem getFeatureCollection_selects_witness :
    getFeatureCollection (Prepare [listingA, listingB]) 100000 200000 2 3 0 3 =
      ({ Features := some [buildFeature listingA], Typ := "FeatureCollection" }, none) ∧
    (getFeatureCollection (Prepare [listingA, listingB]) 300000 100000 0 5 0 3).1.Features =
      some [] := by
  obtain ⟨f1, hfc1, hf1, _, _⟩ := getFeatureCollection_selects (Prepare [listingA, listingB])
    [listingA, listingB] 100000 200000 2 3 0 3 _ rfl rfl
  obtain ⟨f2, hfc2, _, _, hzero⟩ := getFeatureCollection_selects
    (Prepare [listingA, listingB]) [listingA, listingB] 300000 100000 0 5 0 3 _ rfl rfl
  refine ⟨?_, ?_⟩
  · rw [hfc1, hf1]
    rfl
  · rw [hfc2, List.length_eq_zero.1 (hzero (Or.inl (by decide)))]

/-- C5: every row the query returns yields, at the same position, a feature of type
"Feature" whose geometry is a "Point" with the two coordinates `[lng, lat]` (not
`[lat, lng]` unless the two are equal) and whose properties are the row's columns. -/
theorem getFeatureCollection_feature_of_row (stmt : Stmt) (a1 a2 a3 a4 a5 a6 : Int)
    (rows : Rows) (rs : List Row) (hquery : stmt.Query a1 a2 a3 a4 a5 a6 = .ok rows)
    (hscan : rows.steps = rs.map .ok) :
    ∃ features : List Feature,
      (getFeatureCollection stmt a1 a2 a3 a4 a5 a6).1.Features = some features ∧
      features.length = rs.length ∧
      ∀ (i : Nat) (row : Row), rs[i]? = some row →
        ∃ f : Feature, features[i]? = some f ∧
          f.Typ = "Feature" ∧ f.Geometry.Typ = "Point" ∧
          f.Geometry.Coordinates = some [row.lng, row.lat] ∧
          (row.lat ≠ row.lng → f.Geometry.Coordinates ≠ some [row.lat, row.lng]) ∧
          f.Properties.ID = row.id ∧ f.Properties.Street = row.street ∧
          f.Properties.Price = row.price ∧ f.Properties.Bedrooms = row.beds ∧
          f.Properties.Bathrooms = row.baths ∧ f.Properties.SqFt = row.sqft := by
  refine ⟨rs.map buildFeature, ?_, by simp, ?_⟩
  · rw [getFeatureCollection_of_rows stmt _ _ _ _ _ _ rows rs hquery hscan]
  · intro i row hrow
    refine ⟨buildFeature row, by simp [hrow], rfl, rfl, rfl, ?_, rfl, rfl, rfl, rfl, rfl, rfl⟩
    intro hne h
    simp only [buildFeature, Option.some.injEq, List.cons.injEq, and_true] at h
    exact hne h.1.symm

/-- Witness for C5: the second row of the sample table and its feature. -/
theorem getFeatureCollection_feature_of_row_witness :
    ∃ f : Feature,
      ((getFeatureCollection (Prepare [listingA, listingB]) 0 400000 0 5 0 3).1.Features.getD
        [])[1]? = some f ∧
      f.Geometry.Coordinates = some [listingB.lng, listingB.lat] ∧
      f.Properties.ID = "b2" ∧ f.Properties.Price = 350000 := by
  obtain ⟨features, hfs, _, hall⟩ := getFeatureCollection_feature_of_row
    (Prepare [listingA, listingB]) 0 400000 0 5 0 3 _ [listingA, listingB] rfl rfl
  obtain ⟨f, hf, _, _, hcoord, _, hid, _, hprice, _⟩ := hall 1 listingB rfl
  exact ⟨f, by rw [hfs]; exact hf, hcoord, hid, hprice⟩

/-- C7: whenever `getFeatureCollection` returns no error, the collection has type
"FeatureCollection" and a non-nil feature slice, which is the empty slice when the
cursor yields no row. -/
theorem getFeatureCollection_ok_shape (stmt : Stmt) (a1 a2 a3 a4 a5 a6 : Int)
    (hok : (getFeatureCollection stmt a1 a2 a3 a4 a5 a6).2 = none) :
    (getFeatureCollection stmt a1 a2 a3 a4 a5 a6).1.Typ = "FeatureCollection" ∧
    (getFeatureCollection stmt a1 a2 a3 a4 a5 a6).1.Features ≠ none ∧
    (∀ rows : Rows, stmt.Query a1 a2 a3 a4 a5 a6 = .ok rows → rows.steps = [] →
      (getFeatureCollection stmt a1 a2 a3 a4 a5 a6).1.Features = some []) := by
  cases hq : stmt.Query a1 a2 a3 a4 a5 a6 with
  | error err => simp [getFeatureCollection, hq] at hok
  | ok rows =>
    cases hs : scanLoop rows.steps [] with
    | error err => simp [getFeatureCollection, hq, hs] at hok
    | ok features =>
      have hfc : getFeatureCollection stmt a1 a2 a3 a4 a5 a6 =
          ({ Features := some features, Typ := "FeatureCollection" }, none) := by
        simp [getFeatureCollection, hq, hs]
      rw [hfc]
      refine ⟨rfl, by simp, ?_⟩
      intro rows2 h2 hnil
      simp only [Except.ok.injEq] at h2
      subst h2
      rw [hnil] at hs
      simp only [scanLoop, Except.ok.injEq] at hs
      simp [hs]

/-- Witness for C7: a query that matches no row of the sample table. -/
theorem getFeatureCollection_ok_shape_witness :
    (getFeatureCollection (Prepare [listingA, listingB]) 0 100 0 5 0 3).2 = none ∧
    (getFeatureCollection (Prepare [listingA, listingB]) 0 100 0 5 0 3).1.Typ =
      "FeatureCollection" ∧
    (getFeatureCollection (Prepare [listingA, listingB]) 0 100 0 5 0 3).1.Features =
      some [] := by
  have h := getFeatureCollection_ok_shape (Prepare [listingA, listingB]) 0 100 0 5 0 3 rfl
  exact ⟨rfl, h.1, h.2.2 _ rfl rfl⟩

/-- C8 (what the code does): a cursor that stops after the rows `read` with the
pending error `err` makes `getFeatureCollection` return the features of `read` and
no error; on the sample cursor that breaks after `listingA` the handler answers 200
with that one feature. -/
theorem getFeatureCollection_drops_cursor_error (read : List Row) (err : GoError)
    (a1 a2 a3 a4 a5 a6 : Int) :
    getFeatureCollection
        { Query := fun _ _ _ _ _ _ => .ok { steps := read.map .ok, err := some err } }
        a1 a2 a3 a4 a5 a6 =
      ({ Features := some (read.map buildFeature), Typ := "FeatureCollection" }, none) ∧
    getFeatureCollection brokenCursorStmt 0 300000 0 5 0 3 =
      ({ Features := some [buildFeature listingA], Typ := "FeatureCollection" }, none) ∧
    (listingsHandler sampleFmt brokenCursorStmt filterKeys (formOf [])).status = 200 := by
  refine ⟨?_, ?_, ?_⟩
  · exact getFeatureCollection_of_rows _ _ _ _ _ _ _ _ read rfl rfl
  · rfl
  · decide

/-! ## Facts about the parameter loop, `Atoi` and `Marshal` -/

theorem parseLoop_error (r : Request) (keys : List String) (vals : Vals) (key : String)
    (h : parseLoop r keys vals = .error key) :
    key ∈ keys ∧ r.FormValue key ≠ "" ∧ (Atoi (r.FormValue key)).2 = some .ErrSyntax := by
  induction keys generalizing vals with
  | nil => simp [parseLoop] at h
  | cons k rest ih =>
    unfold parseLoop at h
    by_cases hv : r.FormValue k = ""
    · simp only [hv, ne_eq, not_true_eq_false, if_false] at h
      have := ih _ h
      exact ⟨List.mem_cons_of_mem _ this.1, this.2⟩
    · simp only [ne_eq, hv, not_false_eq_true, if_true] at h
      rcases hA : Atoi (r.FormValue k) with ⟨val, _ | e⟩
      · rw [hA] at h
        have := ih _ h
        exact ⟨List.mem_cons_of_mem _ this.1, this.2⟩
      · cases e with
        | ErrSyntax =>
          rw [hA] at h
          simp only [Except.error.injEq] at h
          subst h
          exact ⟨List.mem_cons_self _ _, hv, by rw [hA]⟩
        | ErrRange =>
          rw [hA] at h
          have := ih _ h
          exact ⟨List.mem_cons_of_mem _ this.1, this.2⟩

theorem parseLoop_ok (r : Request) (keys : List String) (vals out : Vals)
    (h : parseLoop r keys vals = .ok out) :
    (∀ key ∈ keys, r.FormValue key ≠ "" → (Atoi (r.FormValue key)).2 ≠ some .ErrSyntax) ∧
    ∀ k, out k =
      if k ∈ keys ∧ r.FormValue k ≠ "" then (Atoi (r.FormValue k)).1 else vals k := by
  induction keys generalizing vals with
  | nil =>
    simp only [parseLoop, Except.ok.injEq] at h
    subst h
    simp
  | cons k rest ih =>
    unfold parseLoop at h
    by_cases hv : r.FormValue k = ""
    · simp only [hv, ne_eq, not_true_eq_false, if_false] at h
      obtain ⟨h1, h2⟩ := ih _ h
      refine ⟨?_, ?_⟩
      · intro key hkey hne
        rcases List.mem_cons.1 hkey with rfl | hmem
        · exact absurd hv hne
        · exact h1 key hmem hne
      · intro q
        rw [h2 q]
        by_cases hq : q = k
        · subst hq
          simp [hv]
        · simp [hq]
    · simp only [ne_eq, hv, not_false_eq_true, if_true] at h
      have key_step : ∀ val, Atoi (r.FormValue k) = (val, none) ∨
          Atoi (r.FormValue k) = (val, some .ErrRange) →
          parseLoop r rest (vals.set k val) = .ok out →
          (∀ key ∈ k :: rest, r.FormValue key ≠ "" →
            (Atoi (r.FormValue key)).2 ≠ some .ErrSyntax) ∧
          ∀ q, out q = if q ∈ k :: rest ∧ r.FormValue q ≠ "" then (Atoi (r.FormValue q)).1
            else vals q := by
        intro val hval hrest
        obtain ⟨h1, h2⟩ := ih _ hrest
        refine ⟨?_, ?_⟩
        · intro key hkey hne
          rcases List.mem_cons.1 hkey with rfl | hmem
          · rcases hval with hval | hval <;> simp [hval]
          · exact h1 key hmem hne
        · intro q
          rw [h2 q]
          have hfst : (Atoi (r.FormValue k)).1 = val := by
            rcases hval with hval | hval <;> simp [hval]
          by_cases hq : q = k
          · subst hq
            by_cases hm : q ∈ rest
            · simp [hm, hv]
            · simp [hm, hv, Vals.set, hfst]
          · simp [hq, Vals.set]
      rcases hA : Atoi (r.FormValue k) with ⟨val, _ | e⟩
      · rw [hA] at h
        exact key_step val (Or.inl hA) h
      · cases e with
        | ErrSyntax =>
          rw [hA] at h
          simp at h
        | ErrRange =>
          rw [hA] at h
          exact key_step val (Or.inr hA) h

theorem parseLoop_resolved (r : Request) (order : List String) (out : Vals)
    (horder : order.Perm filterKeys) (h : parseLoop r order defaultVals = .ok out)
    (key : String) (hkey : key ∈ filterKeys) : out key = resolved r key := by
  have hmem : key ∈ order := horder.mem_iff.2 hkey
  rw [(parseLoop_ok r order _ _ h).2 key]
  unfold resolved
  by_cases hv : r.FormValue key = "" <;> simp [hv, hmem]

theorem ParseInt_range_value (s : List Char) (h : (ParseInt s).2 = some .ErrRange) :
    (ParseInt s).1 = 2 ^ 63 - 1 ∨ (ParseInt s).1 = -2 ^ 63 := by
  cases s with
  | nil => simp [ParseInt] at h
  | cons c rest =>
    simp only [ParseInt] at h ⊢
    generalize ParseUint (if c = '+' ∨ c = '-' then rest else c :: rest) = p at h ⊢
    obtain ⟨un, e⟩ := p
    rcases e with _ | e
    · simp only at h ⊢
      split_ifs at h ⊢ <;> simp_all [intSize]
    · cases e
      · simp at h
      · simp only at h ⊢
        split_ifs at h ⊢ <;> simp_all [intSize]

theorem Atoi_fast_no_range (s : String) (hlen : 0 < s.utf8ByteSize ∧ s.utf8ByteSize < 19) :
    (Atoi s).2 ≠ some .ErrRange := by
  simp only [Atoi, hlen, and_self, if_true]
  cases s.data with
  | nil => simp
  | cons c rest =>
    simp only
    generalize (if decide (c = '-' ∨ c = '+') = true then rest else c :: rest) = digits
    by_cases hs : (decide (c = '-' ∨ c = '+') && digits.isEmpty) = true
    · rw [if_pos hs]
      simp
    · rw [if_neg hs]
      cases atoiFastLoop digits 0 <;> simp

theorem Atoi_range_value (s : String) (h : (Atoi s).2 = some .ErrRange) :
    (Atoi s).1 = 2 ^ 63 - 1 ∨ (Atoi s).1 = -2 ^ 63 := by
  by_cases hlen : 0 < s.utf8ByteSize ∧ s.utf8ByteSize < 19
  · exact absurd h (Atoi_fast_no_range s hlen)
  · have hslow : Atoi s = ParseInt s.data := by
      simp only [Atoi, hlen, if_false]
    rw [hslow] at h ⊢
    exact ParseInt_range_value _ h

theorem Marshal_head (fmtFloat : Float64 → String) (fc : FeatureCollection) (out : String)
    (h : Marshal fmtFloat fc = .ok out) : out.data.head? = some (Char.ofNat 123) := by
  unfold Marshal at h
  cases he : encodeAll (encodeFeature fmtFloat) fc.Features with
  | error err => simp [he, bind, Except.bind] at h
  | ok v =>
    simp only [he, bind, Except.bind, pure, Except.pure, Except.ok.injEq] at h
    subst h
    simp only [String.data_append]
    rfl

theorem problemBody_head (err : GoError) : (problemBody err).data.head? = some 'W' := by
  simp only [problemBody, String.data_append]
  rfl

theorem problemBody_not_json (err : GoError) (fmtFloat : Float64 → String)
    (fc : FeatureCollection) : Marshal fmtFloat fc ≠ .ok (problemBody err) := by
  intro h
  have h1 := Marshal_head _ _ _ h
  rw [problemBody_head] at h1
  exact absurd h1 (by decide)

theorem filterKeys_mem (key : String) (h : key ∈ filterKeys) :
    key = "min_price" ∨ key = "max_price" ∨ key = "min_bed" ∨ key = "max_bed" ∨
      key = "min_bath" ∨ key = "max_bath" := by
  simpa [filterKeys] using h

theorem listingsHandler_of_bad (fmtFloat : Float64 → String) (stmt : Stmt)
    (order : List String) (r : Request) (horder : order.Perm filterKeys) (key : String)
    (hkey : key ∈ filterKeys) (hne : r.FormValue key ≠ "")
    (hsyn : (Atoi (r.FormValue key)).2 = some .ErrSyntax) :
    ∃ k, k ∈ filterKeys ∧ r.FormValue k ≠ "" ∧
      (Atoi (r.FormValue k)).2 = some .ErrSyntax ∧
      listingsHandler fmtFloat stmt order r =
        { status := 400, contentType := none, body := k ++ " is not a number",
          queries := [] } := by
  cases hp : parseLoop r order defaultVals with
  | ok vals =>
    exact absurd hsyn ((parseLoop_ok r order _ _ hp).1 key (horder.mem_iff.2 hkey) hne)
  | error k =>
    obtain ⟨hk, hk1, hk2⟩ := parseLoop_error r order _ k hp
    exact ⟨k, horder.mem_iff.1 hk, hk1, hk2, by simp [listingsHandler, hp]⟩

theorem listingsHandler_of_good (fmtFloat : Float64 → String) (stmt : Stmt)
    (order : List String) (r : Request) (horder : order.Perm filterKeys)
    (hgood : ∀ key ∈ filterKeys, r.FormValue key ≠ "" →
      (Atoi (r.FormValue key)).2 ≠ some .ErrSyntax) :
    listingsHandler fmtFloat stmt order r =
      respond fmtFloat stmt r (resolved r "min_price") (resolved r "max_price")
        (resolved r "min_bed") (resolved r "max_bed") (resolved r "min_bath")
        (resolved r "max_bath") := by
  cases hp : parseLoop r order defaultVals with
  | error k =>
    obtain ⟨hk, hk1, hk2⟩ := parseLoop_error r order _ k hp
    exact absurd hk2 (hgood k (horder.mem_iff.1 hk) hk1)
  | ok vals =>
    have hv := parseLoop_resolved r order vals horder hp
    simp only [listingsHandler, hp]
    rw [hv "min_price" (by simp [filterKeys]), hv "max_price" (by simp [filterKeys]),
      hv "min_bed" (by simp [filterKeys]), hv "max_bed" (by simp [filterKeys]),
      hv "min_bath" (by simp [filterKeys]), hv "max_bath" (by simp [filterKeys])]

theorem listingsHandler_good_of_not_400 (fmtFloat : Float64 → String) (stmt : Stmt)
    (order : List String) (r : Request) (horder : order.Perm filterKeys)
    (h : (listingsHandler fmtFloat stmt order r).status ≠ 400) :
    ∀ key ∈ filterKeys, r.FormValue key ≠ "" →
      (Atoi (r.FormValue key)).2 ≠ some .ErrSyntax := by
  intro key hkey hne hsyn
  obtain ⟨k, _, _, _, hout⟩ := listingsHandler_of_bad fmtFloat stmt order r horder key hkey hne hsyn
  rw [hout] at h
  exact h rfl

theorem respond_status (fmtFloat : Float64 → String) (stmt : Stmt) (r : Request)
    (a1 a2 a3 a4 a5 a6 : Int) :
    (respond fmtFloat stmt r a1 a2 a3 a4 a5 a6).status ≠ 400 ∧
    (respond fmtFloat stmt r a1 a2 a3 a4 a5 a6).queries = [(a1, a2, a3, a4, a5, a6)] := by
  unfold respond
  rcases getFeatureCollection stmt a1 a2 a3 a4 a5 a6 with ⟨fc, _ | err⟩
  · cases hm : Marshal fmtFloat fc <;> simp [hm]
  · simp

theorem respond_200 (fmtFloat : Float64 → String) (stmt : Stmt) (r : Request)
    (a1 a2 a3 a4 a5 a6 : Int)
    (h : (respond fmtFloat stmt r a1 a2 a3 a4 a5 a6).status = 200) :
    ∃ fc geoJson, getFeatureCollection stmt a1 a2 a3 a4 a5 a6 = (fc, none) ∧
      Marshal fmtFloat fc = .ok geoJson ∧
      respond fmtFloat stmt r a1 a2 a3 a4 a5 a6 =
        { status := 200,
          contentType :=
            if (r.Form "json").isSome then some "application/json"
            else some "application/vnd.geo+json",
          body := geoJson, queries := [(a1, a2, a3, a4, a5, a6)] } := by
  unfold respond at h ⊢
  rcases hg : getFeatureCollection stmt a1 a2 a3 a4 a5 a6 with ⟨fc, _ | err⟩
  · rw [hg] at h
    cases hm : Marshal fmtFloat fc with
    | error e => simp [hm] at h
    | ok geoJson => exact ⟨fc, geoJson, rfl, hm, by simp [hm]⟩
  · rw [hg] at h
    simp at h

/-! ## Claims about `listingsHandler` -/

/-- C2 (counterexample): `min_price=99999999999999999999x` is non-empty and no
numeral, but its digits overflow before the `x` is read, so `strconv.Atoi` reports a
range error; the handler answers 200, not 400, and runs the query with 2^63-1. -/
theorem listingsHandler_overflowing_prefix_not_rejected :
    "99999999999999999999x".data.all Char.isDigit = false ∧
    (Atoi "99999999999999999999x").2 = some .ErrRange ∧
    (listingsHandler sampleFmt (Prepare [listingA]) filterKeys
      (formOf [("min_price", ["99999999999999999999x"])])).status = 200 ∧
    (listingsHandler sampleFmt (Prepare [listingA]) filterKeys
      (formOf [("min_price", ["99999999999999999999x"])])).body ≠
        "min_price is not a number" ∧
    (listingsHandler sampleFmt (Prepare [listingA]) filterKeys
      (formOf [("min_price", ["99999999999999999999x"])])).queries =
        [(9223372036854775807, 300000, 0, 5, 0, 3)] := by
  decide

/-- C2 (amended): when some filter key is supplied with a non-empty value that
`strconv.Atoi` rejects with a syntax error, the handler answers 400 with the body
"<key> is not a number" for one such key (that key when it is the only one), and
`stmt.Query` is not called. -/
theorem listingsHandler_rejects_syntax_error (fmtFloat : Float64 → String) (stmt : Stmt)
    (order : List String) (r : Request) (horder : order.Perm filterKeys) (key : String)
    (hkey : key ∈ filterKeys) (hne : r.FormValue key ≠ "")
    (hsyn : (Atoi (r.FormValue key)).2 = some .ErrSyntax) :
    (listingsHandler fmtFloat stmt order r).status = 400 ∧
    (listingsHandler fmtFloat stmt order r).queries = [] ∧
    (∃ k ∈ filterKeys, r.FormValue k ≠ "" ∧ (Atoi (r.FormValue k)).2 = some .ErrSyntax ∧
      (listingsHandler fmtFloat stmt order r).body = k ++ " is not a number") ∧
    ((∀ k ∈ filterKeys, r.FormValue k ≠ "" →
        (Atoi (r.FormValue k)).2 = some .ErrSyntax → k = key) →
      (listingsHandler fmtFloat stmt order r).body = key ++ " is not a number") := by
  obtain ⟨k, hk, hk1, hk2, hout⟩ :=
    listingsHandler_of_bad fmtFloat stmt order r horder key hkey hne hsyn
  rw [hout]
  refine ⟨rfl, rfl, ⟨k, hk, hk1, hk2, rfl⟩, ?_⟩
  intro honly
  rw [honly k hk hk1 hk2]

/-- Witness for C2 (amended): the request `min_price=abc`. -/
theorem listingsHandler_rejects_syntax_error_witness :
    (Atoi "abc").2 = some .ErrSyntax ∧
    (listingsHandler sampleFmt (Prepare [listingA]) filterKeys
      (formOf [("min_price", ["abc"])])).status = 400 ∧
    (listingsHandler sampleFmt (Prepare [listingA]) filterKeys
      (formOf [("min_price", ["abc"])])).queries = [] ∧
    (listingsHandler sampleFmt (Prepare [listingA]) filterKeys
      (formOf [("min_price", ["abc"])])).body = "min_price is not a number" := by
  have h := listingsHandler_rejects_syntax_error sampleFmt (Prepare [listingA]) filterKeys
    (formOf [("min_price", ["abc"])]) (List.Perm.refl _) "min_price" (by decide) (by decide)
    (by decide)
  refine ⟨by decide, h.1, h.2.1, h.2.2.2 ?_⟩
  intro k hk hne _
  rcases filterKeys_mem k hk with rfl | rfl | rfl | rfl | rfl | rfl
  · rfl
  all_goals exact absurd (by decide) hne

/-- C3 (counterexample): `min_price=99999999999999999999` fails to parse (range
error), yet the handler answers 200 and runs the query, with 2^63-1 as the bound. -/
theorem listingsHandler_out_of_range_not_rejected :
    (Atoi "99999999999999999999").2 = some .ErrRange ∧
    (listingsHandler sampleFmt (Prepare [listingA]) filterKeys
      (formOf [("min_price", ["99999999999999999999"])])).status = 200 ∧
    (listingsHandler sampleFmt (Prepare [listingA]) filterKeys
      (formOf [("min_price", ["99999999999999999999"])])).queries =
        [(9223372036854775807, 300000, 0, 5, 0, 3)] := by
  decide

/-- C3 (amended): a non-empty value that `strconv.Atoi` rejects with a syntax error
gives 400, a body naming such a parameter and no query; when no supplied value has a
syntax error the handler does not answer 400 and runs exactly one query, in which a
value rejected with a range error stands as 2^63-1 or -2^63. -/
theorem listingsHandler_parse_failures (fmtFloat : Float64 → String) (stmt : Stmt)
    (order : List String) (r : Request) (horder : order.Perm filterKeys) :
    ((∃ key ∈ filterKeys, r.FormValue key ≠ "" ∧
        (Atoi (r.FormValue key)).2 = some .ErrSyntax) →
      (listingsHandler fmtFloat stmt order r).status = 400 ∧
      (listingsHandler fmtFloat stmt order r).queries = [] ∧
      ∃ k ∈ filterKeys, r.FormValue k ≠ "" ∧ (Atoi (r.FormValue k)).2 = some .ErrSyntax ∧
        (listingsHandler fmtFloat stmt order r).body = k ++ " is not a number") ∧
    ((∀ key ∈ filterKeys, r.FormValue key ≠ "" →
        (Atoi (r.FormValue key)).2 ≠ some .ErrSyntax) →
      (listingsHandler fmtFloat stmt order r).status ≠ 400 ∧
      (listingsHandler fmtFloat stmt order r).queries =
        [(resolved r "min_price", resolved r "max_price", resolved r "min_bed",
          resolved r "max_bed", resolved r "min_bath", resolved r "max_bath")] ∧
      ∀ key ∈ filterKeys, r.FormValue key ≠ "" →
        (Atoi (r.FormValue key)).2 = some .ErrRange →
        resolved r key = 2 ^ 63 - 1 ∨ resolved r key = -2 ^ 63) := by
  constructor
  · rintro ⟨key, hkey, hne, hsyn⟩
    obtain ⟨k, hk, hk1, hk2, hout⟩ :=
      listingsHandler_of_bad fmtFloat stmt order r horder key hkey hne hsyn
    rw [hout]
    exact ⟨rfl, rfl, k, hk, hk1, hk2, rfl⟩
  · intro hgood
    rw [listingsHandler_of_good fmtFloat stmt order r horder hgood]
    refine ⟨(respond_status _ _ _ _ _ _ _ _ _).1, (respond_status _ _ _ _ _ _ _ _ _).2, ?_⟩
    intro key _ hne hrange
    unfold resolved
    rw [if_neg hne]
    exact Atoi_range_value _ hrange

/-- Witness for C3 (amended): `min_bed=-99999999999999999999` is queried as -2^63. -/
theorem listingsHandler_parse_failures_witness :
    (Atoi "-99999999999999999999").2 = some .ErrRange ∧
    (listingsHandler sampleFmt (Prepare [listingA]) filterKeys
      (formOf [("min_bed", ["-99999999999999999999"])])).status ≠ 400 ∧
    (listingsHandler sampleFmt (Prepare [listingA]) filterKeys
      (formOf [("min_bed", ["-99999999999999999999"])])).queries =
        [(0, 300000, -9223372036854775808, 5, 0, 3)] := by
  have h := (listingsHandler_parse_failures sampleFmt (Prepare [listingA]) filterKeys
    (formOf [("min_bed", ["-99999999999999999999"])]) (List.Perm.refl _)).2 (by decide)
  exact ⟨by decide, h.1, h.2.1.trans (by decide)⟩

/-- C4: when every supplied non-empty filter value parses, the one query the handler
runs has, for each key, the parsed integer when the key has a non-empty value and the
default 0, 300000, 0, 5, 0, 3 otherwise; the bound of a key depends on that key's
value alone; no parameters give (0, 300000, 0, 5, 0, 3), and
`min_price=100000&max_price=200000&min_bed=2&max_bed=3` gives
(100000, 200000, 2, 3, 0, 3). -/
theorem listingsHandler_bounds (fmtFloat : Float64 → String) (stmt : Stmt)
    (order : List String) (r : Request) (horder : order.Perm filterKeys)
    (hparse : ∀ key ∈ filterKeys, r.FormValue key ≠ "" →
      (Atoi (r.FormValue key)).2 = none) :
    (listingsHandler fmtFloat stmt order r).queries =
      [(resolved r "min_price", resolved r "max_price", resolved r "min_bed",
        resolved r "max_bed", resolved r "min_bath", resolved r "max_bath")] ∧
    (∀ key, resolved r key =
      if r.FormValue key = "" then
        (if key = "min_price" then 0 else if key = "max_price" then 300000
          else if key = "min_bed" then 0 else if key = "max_bed" then 5
          else if key = "min_bath" then 0 else if key = "max_bath" then 3 else 0)
      else (Atoi (r.FormValue key)).1) ∧
    (∀ (r2 : Request) (key : String), r2.FormValue key = r.FormValue key →
      resolved r2 key = resolved r key) ∧
    (listingsHandler fmtFloat stmt order (formOf [])).queries = [(0, 300000, 0, 5, 0, 3)] ∧
    (listingsHandler fmtFloat stmt order
      (formOf [("min_price", ["100000"]), ("max_price", ["200000"]), ("min_bed", ["2"]),
        ("max_bed", ["3"])])).queries = [(100000, 200000, 2, 3, 0, 3)] := by
  have hgood : ∀ (q : Request), (∀ key ∈ filterKeys, q.FormValue key ≠ "" →
      (Atoi (q.FormValue key)).2 = none) →
      (listingsHandler fmtFloat stmt order q).queries =
        [(resolved q "min_price", resolved q "max_price", resolved q "min_bed",
          resolved q "max_bed", resolved q "min_bath", resolved q "max_bath")] := by
    intro q hq
    rw [listingsHandler_of_good fmtFloat stmt order q horder
      (fun key hkey hne => by rw [hq key hkey hne]; simp)]
    exact (respond_status _ _ _ _ _ _ _ _ _).2
  refine ⟨hgood r hparse, ?_, ?_, ?_, ?_⟩
  · intro key
    rfl
  · intro r2 key h
    unfold resolved
    rw [h]
  · rw [hgood _ (by decide)]
    decide
  · rw [hgood _ (by decide)]
    decide

/-- Witness for C4: `max_price=400000&min_bath=&max_bed=+4`. -/
theorem listingsHandler_bounds_witness :
    (listingsHandler sampleFmt (Prepare [listingA, listingB]) filterKeys
      (formOf [("max_price", ["400000"]), ("min_bath", [""]), ("max_bed", ["+4"])])).queries =
        [(0, 400000, 0, 4, 0, 3)] := by
  have h := listingsHandler_bounds sampleFmt (Prepare [listingA, listingB]) filterKeys
    (formOf [("max_price", ["400000"]), ("min_bath", [""]), ("max_bed", ["+4"])])
    (List.Perm.refl _) (by decide)
  exact h.1.trans (by decide)

/-- C6 (counterexample): a request that matches no row is answered 200, but the body
starts with the key `features`, not with the key `type`. -/
theorem listingsHandler_no_rows_body_differs :
    (listingsHandler sampleFmt (Prepare []) filterKeys (formOf [])).status = 200 ∧
    (listingsHandler sampleFmt (Prepare []) filterKeys (formOf [])).body ≠
      "\x7b\"type\":\"FeatureCollection\",\"features\":[]\x7d" := by
  decide

/-- C6 (amended): when no supplied value has a syntax error and the query yields no
row, the handler answers 200 and the body is exactly
`{"features":[],"type":"FeatureCollection"}`. -/
theorem listingsHandler_no_rows (fmtFloat : Float64 → String) (stmt : Stmt)
    (order : List String) (r : Request) (horder : order.Perm filterKeys)
    (hgood : ∀ key ∈ filterKeys, r.FormValue key ≠ "" →
      (Atoi (r.FormValue key)).2 ≠ some .ErrSyntax)
    (rows : Rows)
    (hquery : stmt.Query (resolved r "min_price") (resolved r "max_price")
      (resolved r "min_bed") (resolved r "max_bed") (resolved r "min_bath")
      (resolved r "max_bath") = .ok rows)
    (hnone : rows.steps = []) :
    (listingsHandler fmtFloat stmt order r).status = 200 ∧
    (listingsHandler fmtFloat stmt order r).body =
      "\x7b\"features\":[],\"type\":\"FeatureCollection\"\x7d" := by
  rw [listingsHandler_of_good fmtFloat stmt order r horder hgood]
  have hfc := getFeatureCollection_of_rows stmt _ _ _ _ _ _ rows [] hquery (by simpa using hnone)
  have hm : Marshal fmtFloat
      { Features := some (([] : List Row).map buildFeature), Typ := "FeatureCollection" } =
      .ok "\x7b\"features\":[],\"type\":\"FeatureCollection\"\x7d" := by
    rfl
  simp only [respond, hfc, hm, and_self]

/-- Witness for C6 (amended): `min_bed=5` matches no row of the sample table. -/
theorem listingsHandler_no_rows_witness :
    (listingsHandler sampleFmt (Prepare [listingA, listingB]) filterKeys
      (formOf [("min_bed", ["5"])])).status = 200 ∧
    (listingsHandler sampleFmt (Prepare [listingA, listingB]) filterKeys
      (formOf [("min_bed", ["5"])])).body =
        "\x7b\"features\":[],\"type\":\"FeatureCollection\"\x7d" :=
  listingsHandler_no_rows sampleFmt (Prepare [listingA, listingB]) filterKeys
    (formOf [("min_bed", ["5"])]) (List.Perm.refl _) (by decide)
    { steps := [], err := none } rfl rfl

/-- C9: when `stmt.Query` fails, or a `rows.Scan` fails after any number of
successful ones, `getFeatureCollection` returns that error with the zero collection
(no features); a handler whose bounds are these answers 500 with the diagnostic text,
which is no output of `json.Marshal`, sets no content type, and has called the query
exactly once. -/
theorem getFeatureCollection_failure (stmt : Stmt) (a1 a2 a3 a4 a5 a6 : Int) (err : GoError)
    (hfail : stmt.Query a1 a2 a3 a4 a5 a6 = .error err ∨
      ∃ (rows : Rows) (scanned : List Row) (rest : List (Except GoError Row)),
        stmt.Query a1 a2 a3 a4 a5 a6 = .ok rows ∧
        rows.steps = scanned.map .ok ++ .error err :: rest) :
    getFeatureCollection stmt a1 a2 a3 a4 a5 a6 = ({ Features := none, Typ := "" }, some err) ∧
    ∀ (fmtFloat : Float64 → String) (order : List String) (r : Request),
      order.Perm filterKeys →
      (∀ key ∈ filterKeys, r.FormValue key ≠ "" →
        (Atoi (r.FormValue key)).2 ≠ some .ErrSyntax) →
      (resolved r "min_price", resolved r "max_price", resolved r "min_bed",
        resolved r "max_bed", resolved r "min_bath", resolved r "max_bath") =
        (a1, a2, a3, a4, a5, a6) →
      (listingsHandler fmtFloat stmt order r).status = 500 ∧
      (listingsHandler fmtFloat stmt order r).body = problemBody err ∧
      (∀ (fmt : Float64 → String) (fc : FeatureCollection),
        Marshal fmt fc ≠ .ok (listingsHandler fmtFloat stmt order r).body) ∧
      (listingsHandler fmtFloat stmt order r).contentType = none ∧
      (listingsHandler fmtFloat stmt order r).queries = [(a1, a2, a3, a4, a5, a6)] := by
  have hfc : getFeatureCollection stmt a1 a2 a3 a4 a5 a6 =
      ({ Features := none, Typ := "" }, some err) := by
    rcases hfail with hq | ⟨rows, scanned, rest, hq, hsteps⟩
    · simp [getFeatureCollection, hq, zeroFeatureCollection]
    · simp [getFeatureCollection, hq, hsteps, scanLoop_error, zeroFeatureCollection]
  refine ⟨hfc, ?_⟩
  intro fmtFloat order r horder hgood hargs
  simp only [Prod.mk.injEq] at hargs
  obtain ⟨h1, h2, h3, h4, h5, h6⟩ := hargs
  rw [listingsHandler_of_good fmtFloat stmt order r horder hgood, h1, h2, h3, h4, h5, h6]
  have hr : respond fmtFloat stmt r a1 a2 a3 a4 a5 a6 =
      { status := 500, contentType := none, body := problemBody err,
        queries := [(a1, a2, a3, a4, a5, a6)] } := by
    simp only [respond, hfc]
  rw [hr]
  exact ⟨rfl, rfl, fun fmt fc => problemBody_not_json err fmt fc, rfl, rfl⟩

/-- Witness for C9: the second scan of the cursor fails. -/
theorem getFeatureCollection_failure_witness :
    getFeatureCollection scanFailingStmt 0 300000 0 5 0 3 =
      ({ Features := none, Typ := "" }, some scanFailure) ∧
    (listingsHandler sampleFmt scanFailingStmt filterKeys (formOf [])).status = 500 ∧
    (listingsHandler sampleFmt scanFailingStmt filterKeys (formOf [])).queries =
      [(0, 300000, 0, 5, 0, 3)] := by
  have h := getFeatureCollection_failure scanFailingStmt 0 300000 0 5 0 3 scanFailure
    (Or.inr ⟨_, [listingA], [.ok listingB], rfl, rfl⟩)
  have h2 := h.2 sampleFmt filterKeys (formOf []) (List.Perm.refl _) (by decide) (by decide)
  exact ⟨h.1, h2.1, h2.2.2.2.2⟩

/-- C10: a request answered 200 carries `Content-Type: application/json` when the
key `json` is in its form (whatever its value) and `application/vnd.geo+json` when
it is not; two requests answered 200 by the same statement whose forms agree on every
key other than `json` get the same body. -/
theorem listingsHandler_content_type (fmtFloat : Float64 → String) (stmt : Stmt)
    (order1 order2 : List String) (r1 r2 : Request)
    (horder1 : order1.Perm filterKeys) (horder2 : order2.Perm filterKeys)
    (hsame : ∀ key, key ≠ "json" → r1.Form key = r2.Form key)
    (hok1 : (listingsHandler fmtFloat stmt order1 r1).status = 200)
    (hok2 : (listingsHandler fmtFloat stmt order2 r2).status = 200) :
    (listingsHandler fmtFloat stmt order1 r1).body =
      (listingsHandler fmtFloat stmt order2 r2).body ∧
    (r1.Form "json" ≠ none →
      (listingsHandler fmtFloat stmt order1 r1).contentType = some "application/json") ∧
    (r1.Form "json" = none →
      (listingsHandler fmtFloat stmt order1 r1).contentType =
        some "application/vnd.geo+json") := by
  have hg1 := listingsHandler_good_of_not_400 fmtFloat stmt order1 r1 horder1
    (by rw [hok1]; decide)
  have hg2 := listingsHandler_good_of_not_400 fmtFloat stmt order2 r2 horder2
    (by rw [hok2]; decide)
  have hres : ∀ key ∈ filterKeys, resolved r1 key = resolved r2 key := by
    intro key hkey
    have hne : key ≠ "json" := by
      rcases filterKeys_mem key hkey with rfl | rfl | rfl | rfl | rfl | rfl <;> decide
    simp only [resolved, Request.FormValue, hsame key hne]
  rw [listingsHandler_of_good fmtFloat stmt order1 r1 horder1 hg1] at hok1 ⊢
  rw [listingsHandler_of_good fmtFloat stmt order2 r2 horder2 hg2] at hok2 ⊢
  rw [← hres "min_price" (by decide), ← hres "max_price" (by decide),
    ← hres "min_bed" (by decide), ← hres "max_bed" (by decide),
    ← hres "min_bath" (by decide), ← hres "max_bath" (by decide)] at hok2 ⊢
  obtain ⟨fc1, g1, hfc1, hm1, hr1⟩ := respond_200 _ _ _ _ _ _ _ _ _ hok1
  obtain ⟨fc2, g2, hfc2, hm2, hr2⟩ := respond_200 _ _ _ _ _ _ _ _ _ hok2
  rw [hr1, hr2]
  rw [hfc1] at hfc2
  simp only [Prod.mk.injEq, and_true] at hfc2
  subst hfc2
  rw [hm1] at hm2
  simp only [Except.ok.injEq] at hm2
  refine ⟨hm2, ?_, ?_⟩
  · intro hj
    simp [Option.isSome_iff_ne_none.2 hj]
  · intro hj
    simp [hj]

/-- Witness for C10: `json=&max_price=400000` against `max_price=400000`, visited in
opposite orders. -/
theorem listingsHandler_content_type_witness :
    (listingsHandler sampleFmt (Prepare [listingA, listingB]) filterKeys
        (formOf [("json", [""]), ("max_price", ["400000"])])).body =
      (listingsHandler sampleFmt (Prepare [listingA, listingB]) filterKeys.reverse
        (formOf [("max_price", ["400000"])])).body ∧
    (listingsHandler sampleFmt (Prepare [listingA, listingB]) filterKeys
        (formOf [("json", [""]), ("max_price", ["400000"])])).contentType =
      some "application/json" := by
  have h := listingsHandler_content_type sampleFmt (Prepare [listingA, listingB]) filterKeys
    filterKeys.reverse (formOf [("json", [""]), ("max_price", ["400000"])])
    (formOf [("max_price", ["400000"])]) (List.Perm.refl _) (List.reverse_perm _)
    (by
      intro key hkey
      have hb : (key == "json") = false := by simpa using hkey
      simp [formOf, List.lookup, hb])
    (by decide) (by decide)
  exact ⟨h.1, h.2.1 (by decide)⟩

end Listings
